import Mathlib

/-!
Verification of the iot-solar-sim pipeline: a shallow embedding in Lean 4 of
the deterministic RNG, the solar/PV simulation model, the telemetry row
hashing and Merkle digest builder, and the anchoring client, together with
theorems about the specified properties.

JavaScript numbers are modelled as exact rationals (ℚ); the JavaScript values
`undefined` / `NaN`, where they can actually arise in the modelled code paths,
are modelled with `Option` (`none` = undefined/NaN).  All definitions are
translated from the TypeScript source.
-/

namespace SolarSim

/-! ## JS numeric utilities (src/util/index.ts) -/

/-- `roundToDecimals(value, decimals)` from src/util/index.ts:
`Math.round(value * 10^d) / 10^d`.  JS `Math.round` rounds half toward +∞,
which on rationals is `⌊x + 1/2⌋`. -/
def roundToDecimals (value : ℚ) (decimals : ℕ) : ℚ :=
  (⌊value * (10 : ℚ) ^ decimals + 1/2⌋ : ℚ) / (10 : ℚ) ^ decimals

/-- `clamp(value, min, max)` from src/util/index.ts:
`Math.min(Math.max(value, min), max)`. -/
def clamp (value lo hi : ℚ) : ℚ := min (max value lo) hi

/-- Decimal digit rendering of the integer `n` produced by ECMAScript
`Number::toString` for a nonnegative integer (Lean's `Nat` repr agrees). -/
def natDigits (n : ℕ) : String := toString n

/-- String-assembly part of ECMAScript `Number.prototype.toFixed`:
given the sign bit, the rounded scaled magnitude `n` and the digit count `f`,
produce the rendered string (pad with leading zeros, insert the point). -/
def renderFixed (neg : Bool) (n : ℕ) (f : ℕ) : String :=
  let m := natDigits n
  let m := if m.length ≤ f then
      String.mk (List.replicate (f + 1 - m.length) '0') ++ m
    else m
  let k := m.length
  let body := if f = 0 then m else m.take (k - f) ++ "." ++ m.drop (k - f)
  (if neg then "-" else "") ++ body

/-- ECMAScript `Number.prototype.toFixed(f)` on an exact rational: the sign is
taken first, then the magnitude is scaled by `10^f` and rounded to the nearest
integer with ties going to the larger integer (`⌊y·10^f + 1/2⌋`). In
particular a negative value whose magnitude rounds to zero renders as
`"-0.000…"`. -/
def toFixedQ (x : ℚ) (f : ℕ) : String :=
  renderFixed (decide (x < 0)) (Int.toNat ⌊|x| * (10 : ℚ) ^ f + 1/2⌋) f

/-- The numeric value represented by `toFixedQ x f` (JS `toFixed` rounding:
sign first, magnitude rounded half away from zero). -/
def jsFixedValue (x : ℚ) (f : ℕ) : ℚ :=
  (if x < 0 then -1 else 1) * (Int.toNat ⌊|x| * (10 : ℚ) ^ f + 1/2⌋ : ℚ) / (10 : ℚ) ^ f

/-! ## SHA-256 (the `crypto.createHash('sha256')` dependency of src/util)

A complete executable SHA-256 over byte lists, using only structural
recursion so that concrete digests reduce in the kernel. -/

/-- 2^32, the word modulus. -/
def M32 : ℕ := 4294967296

/-- Rotate a 32-bit word right by `n`. -/
def rotr32 (x n : ℕ) : ℕ := ((x >>> n) ||| (x <<< (32 - n))) % M32

/-- SHA-256 small sigma 0. -/
def ssig0 (x : ℕ) : ℕ := (rotr32 x 7) ^^^ (rotr32 x 18) ^^^ (x >>> 3)

/-- SHA-256 small sigma 1. -/
def ssig1 (x : ℕ) : ℕ := (rotr32 x 17) ^^^ (rotr32 x 19) ^^^ (x >>> 10)

/-- SHA-256 big sigma 0. -/
def bsig0 (x : ℕ) : ℕ := (rotr32 x 2) ^^^ (rotr32 x 13) ^^^ (rotr32 x 22)

/-- SHA-256 big sigma 1. -/
def bsig1 (x : ℕ) : ℕ := (rotr32 x 6) ^^^ (rotr32 x 11) ^^^ (rotr32 x 25)

/-- SHA-256 choose function. -/
def shaCh (e f g : ℕ) : ℕ := (e &&& f) ^^^ ((e ^^^ 4294967295) &&& g)

/-- SHA-256 majority function. -/
def shaMaj (a b c : ℕ) : ℕ := (a &&& b) ^^^ (a &&& c) ^^^ (b &&& c)

/-- The 64 SHA-256 round constants (FIPS 180-4, written in decimal). -/
def shaK : List ℕ :=
  [1116352408, 1899447441, 3049323471, 3921009573, 961987163,
   1508970993, 2453635748, 2870763221, 3624381080, 310598401,
   607225278, 1426881987, 1925078388, 2162078206, 2614888103,
   3248222580, 3835390401, 4022224774, 264347078, 604807628,
   770255983, 1249150122, 1555081692, 1996064986, 2554220882,
   2821834349, 2952996808, 3210313671, 3336571891, 3584528711,
   113926993, 338241895, 666307205, 773529912, 1294757372,
   1396182291, 1695183700, 1986661051, 2177026350, 2456956037,
   2730485921, 2820302411, 3259730800, 3345764771, 3516065817,
   3600352804, 4094571909, 275423344, 430227734, 506948616,
   659060556, 883997877, 958139571, 1322822218, 1537002063,
   1747873779, 1955562222, 2024104815, 2227730452, 2361852424,
   2428436474, 2756734187, 3204031479, 3329325298]

/-- `k` bytes of `n`, big-endian (most significant byte first). -/
def beBytes : ℕ → ℕ → List ℕ
  | 0, _ => []
  | k + 1, n => beBytes k (n >>> 8) ++ [n % 256]

/-- SHA-256 message padding: append `0x80`, zero bytes up to 56 mod 64, then
the bit length as 8 big-endian bytes. -/
def shaPad (msg : List ℕ) : List ℕ :=
  let L := msg.length
  let zeros := (64 + 56 - ((L + 1) % 64)) % 64
  msg ++ 0x80 :: List.replicate zeros 0 ++ beBytes 8 (8 * L)

/-- Group a byte list into big-endian 32-bit words (tail shorter than 4 bytes
is dropped; padded SHA-256 input is always a multiple of 4). -/
def wordsOfBytes : List ℕ → List ℕ
  | b0 :: b1 :: b2 :: b3 :: rest =>
      (((b0 * 256 + b1) * 256 + b2) * 256 + b3) :: wordsOfBytes rest
  | _ => []

/-- Group a word list into 16-word blocks (short tail dropped; padded input is
always a multiple of 16 words). -/
def blocksOf16 : List ℕ → List (List ℕ)
  | a0 :: a1 :: a2 :: a3 :: a4 :: a5 :: a6 :: a7 ::
    a8 :: a9 :: a10 :: a11 :: a12 :: a13 :: a14 :: a15 :: rest =>
      [a0, a1, a2, a3, a4, a5, a6, a7, a8, a9, a10, a11, a12, a13, a14, a15] ::
        blocksOf16 rest
  | _ => []

/-- Extend the message schedule: `wrev` is the schedule so far, newest word
first; each step prepends `σ1(w[i-2]) + w[i-7] + σ0(w[i-15]) + w[i-16]`. -/
def extendW : ℕ → List ℕ → List ℕ
  | 0, wrev => wrev
  | n + 1, wrev =>
      extendW n
        (((ssig1 (wrev.getD 1 0) + wrev.getD 6 0 + ssig0 (wrev.getD 14 0) +
           wrev.getD 15 0) % M32) :: wrev)

/-- The 64-entry message schedule of a 16-word block. -/
def schedule (block : List ℕ) : List ℕ :=
  (extendW 48 block.reverse).reverse

/-- The eight SHA-256 working variables. -/
structure H8 where
  a : ℕ
  b : ℕ
  c : ℕ
  d : ℕ
  e : ℕ
  f : ℕ
  g : ℕ
  h : ℕ
deriving DecidableEq

/-- One SHA-256 compression round for a `(k, w)` pair. -/
def compressStep (st : H8) (kw : ℕ × ℕ) : H8 :=
  let T1 := (st.h + bsig1 st.e + shaCh st.e st.f st.g + kw.1 + kw.2) % M32
  let T2 := (bsig0 st.a + shaMaj st.a st.b st.c) % M32
  ⟨(T1 + T2) % M32, st.a, st.b, st.c, (st.d + T1) % M32, st.e, st.f, st.g⟩

/-- Compress one 16-word block into the running hash state. -/
def compressBlock (hs : H8) (block : List ℕ) : H8 :=
  let st := (shaK.zip (schedule block)).foldl compressStep hs
  ⟨(hs.a + st.a) % M32, (hs.b + st.b) % M32, (hs.c + st.c) % M32,
   (hs.d + st.d) % M32, (hs.e + st.e) % M32, (hs.f + st.f) % M32,
   (hs.g + st.g) % M32, (hs.h + st.h) % M32⟩

/-- The SHA-256 initial hash value (FIPS 180-4, written in decimal). -/
def shaH0 : H8 :=
  ⟨1779033703, 3144134277, 1013904242, 2773480762,
   1359893119, 2600822924, 528734635, 1541459225⟩

/-- SHA-256 of a byte list, as the 32-byte digest. -/
def sha256Bytes (msg : List ℕ) : List ℕ :=
  let fin := (blocksOf16 (wordsOfBytes (shaPad msg))).foldl compressBlock shaH0
  beBytes 4 fin.a ++ beBytes 4 fin.b ++ beBytes 4 fin.c ++ beBytes 4 fin.d ++
  beBytes 4 fin.e ++ beBytes 4 fin.f ++ beBytes 4 fin.g ++ beBytes 4 fin.h

/-- UTF-8 encoding of one Unicode scalar value. -/
def utf8Char (c : Char) : List ℕ :=
  let n := c.toNat
  if n < 0x80 then [n]
  else if n < 0x800 then [0xC0 + n / 64, 0x80 + n % 64]
  else if n < 0x10000 then
    [0xE0 + n / 4096, 0x80 + (n / 64) % 64, 0x80 + n % 64]
  else
    [0xF0 + n / 262144, 0x80 + (n / 4096) % 64, 0x80 + (n / 64) % 64,
     0x80 + n % 64]

/-- UTF-8 encoding of a string (Node `hash.update(string)` default). -/
def utf8Bytes (s : String) : List ℕ :=
  s.data.foldr (fun c acc => utf8Char c ++ acc) []

/-- Lowercase hex digit characters. -/
def hexChar (n : ℕ) : Char :=
  "0123456789abcdef".toList.getD n 'x'

/-- `sha256(data)` from src/util/index.ts: hex-encoded SHA-256 of the UTF-8
bytes of the input string. -/
def sha256 (data : String) : String :=
  String.mk ((sha256Bytes (utf8Bytes data)).foldr
    (fun b acc => hexChar (b / 16) :: hexChar (b % 16) :: acc) [])

/-! ## Telemetry row hashing (src/util/index.ts, `hashTelemetryRow`) -/

/-- `hashTelemetryRow` from src/util/index.ts: joins site id, ISO timestamp,
energy `toFixed(3)`, power `toFixed(3)`, irradiance `toFixed(1)`, temperature
`toFixed(1)` and status with `'|'`, then applies `sha256`. -/
def hashTelemetryRow (siteId tsUtc : String) (acEnergyKwh acPowerKw poaIrrWm2 tempC : ℚ)
    (status : String) : String :=
  sha256 (String.intercalate "|"
    [siteId, tsUtc, toFixedQ acEnergyKwh 3, toFixedQ acPowerKw 3,
     toFixedQ poaIrrWm2 1, toFixedQ tempC 1, status])

/-! ## Merkle tree (src/util/index.ts, `buildMerkleRoot`) -/

/-- The lexicographic sort applied by `[...hashes].sort()` (JS default string
comparison; the hex digests fed to it are ASCII, where byte order and
code-point order coincide). -/
def sortStrings (hashes : List String) : List String :=
  List.insertionSort (· ≤ ·) hashes

/-- One level of the bottom-up pairing loop: pairs adjacent entries and hashes
`left + right`.  The source takes `right = currentLevel[i + 1] || left`, so an
out-of-bounds (odd count) — or falsy, i.e. empty-string — right entry is
replaced by `left`. -/
def combineLevel : List String → List String
  | [] => []
  | [x] => [sha256 (x ++ x)]
  | x :: y :: rest => sha256 (x ++ (if y = "" then x else y)) :: combineLevel rest

/-- The `while (currentLevel.length > 1)` reduction loop, with an explicit
fuel argument (the loop halves the level size, so `fuel = length` always
suffices).  An exhausted level returns `currentLevel[0]` (`""` standing for
the unreachable empty case). -/
def merkleLoop : ℕ → List String → String
  | 0, level => level.headD ""
  | fuel + 1, level =>
    if level.length > 1 then merkleLoop fuel (combineLevel level)
    else level.headD ""

/-- `buildMerkleRoot` from src/util/index.ts: `sha256('')` for an empty input,
the sole hash unchanged for a singleton, otherwise sort lexicographically and
reduce pairwise bottom-up. -/
def buildMerkleRoot (hashes : List String) : String :=
  if hashes.length = 0 then sha256 ""
  else if hashes.length = 1 then hashes.headD ""
  else merkleLoop hashes.length (sortStrings hashes)

/-- Modelled from the spec (§4.7, §7): the spec requires that building a
Merkle root of zero hashes FAIL (a `DataAbsentError`), rather than return any
degenerate hash; on nonempty input it describes the same algorithm as the
code.  This definition follows the spec's words and is compared against
`buildMerkleRoot` (which the source defines without a failure case). -/
def merkleRootSpec (hashes : List String) : Option String :=
  if hashes.length = 0 then none
  else some (buildMerkleRoot hashes)

/-! ## Deterministic RNG (src/util/index.ts, `DeterministicRNG`)

The runtime object state is the four 32-bit state words plus the Box–Muller
spare slot `_spare`. -/

/-- The `DeterministicRNG` instance state: four 32-bit words and the cached
Box–Muller spare (`null` = `none`). -/
structure RNG where
  a : ℕ
  b : ℕ
  c : ℕ
  d : ℕ
  spare : Option ℚ
deriving DecidableEq

/-- The value returned by `next()`: `t = b << 9` is computed but never used;
`r = a * 5`; `r = ((r << 7) | (r >>> 25)) * 9`; the result is
`(r >>> 0) / 2^32`.  On 32-bit patterns this is
`(((5a·2^7 mod 2^32) | (5a mod 2^32 >> 25)) · 9 mod 2^32) / 2^32`. -/
def nextVal (r : RNG) : ℚ :=
  let r1 := r.a * 5
  let rot := ((r1 * 128) % M32) ||| ((r1 % M32) >>> 25)
  ((rot * 9) % M32 : ℕ) / (M32 : ℚ)

/-- `next()` from src/util/index.ts.  The method destructures
`[a, b, c, d] = this.state` and then writes `this.state[0] = a; … ;
this.state[3] = d` — i.e. it writes back exactly the words it read (the
xoshiro state update is absent), and `_spare` is untouched. -/
def next (r : RNG) : ℚ × RNG :=
  (nextVal r, ⟨r.a, r.b, r.c, r.d, r.spare⟩)

/-- `range(min, max)`: `min + next() * (max - min)`. -/
def range (r : RNG) (lo hi : ℚ) : ℚ × RNG :=
  let (v, r') := next r
  (lo + v * (hi - lo), r')

/-- `int(min, max)`: `Math.floor(range(min, max + 1))`. -/
def intR (r : RNG) (lo hi : ℚ) : ℤ × RNG :=
  let (v, r') := range r lo (hi + 1)
  (⌊v⌋, r')

/-- `boolean(probability)`: `next() < probability`. -/
def booleanR (r : RNG) (p : ℚ) : Bool × RNG :=
  let (v, r') := next r
  (decide (v < p), r')

/-- A JavaScript value as returned by the RNG methods: a number, a boolean,
or `undefined` (an out-of-bounds `choice` index). -/
inductive JsVal where
  | num (q : ℚ)
  | bool (b : Bool)
  | undef
deriving DecidableEq

/-- `choice(array)`: `array[this.int(0, array.length - 1)]`; an out-of-bounds
index (only possible for an empty array) yields `undefined`. -/
def choiceR (r : RNG) (l : List ℚ) : JsVal × RNG :=
  let (i, r') := intR r 0 ((l.length : ℚ) - 1)
  (match l.get? i.toNat with
   | some q => JsVal.num q
   | none => JsVal.undef, r')

/-- The transcendental primitives the simulation calls on the JS `Math`
object, abstracted as exact-rational functions (the modelled control flow and
RNG accounting hold for every implementation). -/
structure MathPrims where
  pi : ℚ
  sinQ : ℚ → ℚ
  cosQ : ℚ → ℚ
  tanQ : ℚ → ℚ
  asinQ : ℚ → ℚ
  atan2Q : ℚ → ℚ → ℚ
  expQ : ℚ → ℚ
  logQ : ℚ → ℚ
  sqrtQ : ℚ → ℚ
  powQ : ℚ → ℚ → ℚ

/-- `normal(mean, stdDev)` (Box–Muller): returns the cached spare when
present (clearing it); otherwise consumes two `next()` draws, returns the
cosine branch, and caches the sine branch as the new spare. -/
def normalR (P : MathPrims) (r : RNG) (mean stdDev : ℚ) : ℚ × RNG :=
  match r.spare with
  | some sp => (sp * stdDev + mean, { r with spare := none })
  | none =>
    let (u1, r1) := next r
    let (u2, r2) := next r1
    let mag := P.sqrtQ (-2 * P.logQ u1)
    (mag * P.cosQ (2 * P.pi * u2) * stdDev + mean,
     { r2 with spare := some (mag * P.sinQ (2 * P.pi * u2)) })

/-- One RNG method invocation, for stating sequence-level determinism. -/
inductive RngCall where
  | next
  | range (lo hi : ℚ)
  | int (lo hi : ℚ)
  | boolean (p : ℚ)
  | choice (l : List ℚ)
  | normal (mean stdDev : ℚ)

/-- Run one RNG method call. -/
def runCall (P : MathPrims) (r : RNG) : RngCall → JsVal × RNG
  | .next => let (v, r') := next r; (.num v, r')
  | .range lo hi => let (v, r') := range r lo hi; (.num v, r')
  | .int lo hi => let (v, r') := intR r lo hi; (.num v, r')
  | .boolean p => let (v, r') := booleanR r p; (.bool v, r')
  | .choice l => choiceR r l
  | .normal m s => let (v, r') := normalR P r m s; (.num v, r')

/-- Run a sequence of RNG method calls, collecting the outputs. -/
def runCalls (P : MathPrims) (r : RNG) : List RngCall → List JsVal × RNG
  | [] => ([], r)
  | c :: cs =>
    let (v, r') := runCall P r c
    let (vs, r'') := runCalls P r' cs
    (v :: vs, r'')

/-- Little-endian 32-bit read at byte offset `k` (`Buffer.readUInt32LE`). -/
def readUInt32LE (bytes : List ℕ) (k : ℕ) : ℕ :=
  bytes.getD k 0 + 256 * bytes.getD (k + 1) 0 + 65536 * bytes.getD (k + 2) 0 +
    16777216 * bytes.getD (k + 3) 0

/-- The `DeterministicRNG` constructor: state = four little-endian 32-bit
words of `sha256(seed.toString())`; `_spare` starts `null`. -/
def initRNG (seed : ℕ) : RNG :=
  let digest := sha256Bytes (utf8Bytes (natDigits seed))
  ⟨readUInt32LE digest 0, readUInt32LE digest 4, readUInt32LE digest 8,
   readUInt32LE digest 12, none⟩

/-- The stream of `next()` outputs: the value of the `(k+1)`-st call to
`next()` on an instance that starts in state `r`. -/
def nextStream (r : RNG) : ℕ → ℚ
  | 0 => (next r).1
  | k + 1 => nextStream (next r).2 k

/-! ## Site configuration (src/config/index.ts) -/

/-- One outage window of `siteConfigSchema`: start/end time-of-day strings
(`"HH:MM"`) and a day pattern (day codes or `"ALL"`). -/
structure OutageWindow where
  start : String
  ending : String
  days : String
deriving DecidableEq

/-- A site configuration as validated by `siteConfigSchema`
(src/config/index.ts lines 30–51).  The schema constrains only the field
types; note the capitalization of `capacityAcKW`. -/
structure SiteConfig where
  siteId : String
  name : String
  country : String
  timezone : String
  lat : ℚ
  lon : ℚ
  capacityDcKW : ℚ
  capacityAcKW : ℚ
  tiltDeg : ℚ
  azimuthDeg : ℚ
  modules : ℚ
  inverterEff : ℚ
  degradationPctPerYear : ℚ
  baselineKgPerKwh : ℚ
  outageWindows : List OutageWindow
  curtailmentPct : ℚ
deriving DecidableEq

/-- The site object as the fields are actually READ by `PVSimulationModel`.
The model reads `this.site.capacityAcKw` (lowercase `w`); on an object built
from `siteConfigSchema` that property does not exist (the schema defines
`capacityAcKW`), so the read yields `undefined` — modelled as `none`.  On a
database record (the `site as SiteConfig` casts in the API/scripts) the
lowercase property exists. -/
structure SiteObject where
  lat : ℚ
  lon : ℚ
  tiltDeg : ℚ
  azimuthDeg : ℚ
  modules : ℚ
  inverterEff : ℚ
  capacityAcKw : Option ℚ
  outageWindows : List OutageWindow
  curtailmentPct : ℚ
deriving DecidableEq

/-- The runtime view of a `siteConfigSchema`-validated config: every field the
model reads is present except `capacityAcKw`, which the schema spells
`capacityAcKW` and therefore does not define. -/
def siteFromConfig (c : SiteConfig) : SiteObject :=
  ⟨c.lat, c.lon, c.tiltDeg, c.azimuthDeg, c.modules, c.inverterEff,
   none, c.outageWindows, c.curtailmentPct⟩

/-- The test site of src/test/pv-simulation.test.ts (a literal of the
`SiteConfig` type). -/
def testSite : SiteConfig :=
  { siteId := "TEST001", name := "Test Solar Farm", country := "US",
    timezone := "America/Los_Angeles", lat := 3405/100, lon := -11824/100,
    capacityDcKW := 1000, capacityAcKW := 800, tiltDeg := 30,
    azimuthDeg := 180, modules := 2000, inverterEff := 95/100,
    degradationPctPerYear := 1/2, baselineKgPerKwh := 386/1000,
    outageWindows := [], curtailmentPct := 0 }

/-! ## PV simulation model (src/model/pv-simulation.ts) -/

/-- The `Date` argument of the model, via the accessors the source calls:
`getTime()`, `new Date(getFullYear(), 0, 1).getTime()`, `getUTCHours()`,
`getUTCMinutes()`, `getUTCDay()` and `toISOString()`. -/
structure DateRec where
  timeMs : ℤ
  startOfYearMs : ℤ
  utcHours : ℕ
  utcMinutes : ℕ
  utcDay : Fin 7
  iso : String

/-- One generated telemetry record (`TelemetryData`).  `acPowerKw` and
`acEnergyKwh` are `Option ℚ` because the AC-capacity clip can produce `NaN`
(see `calculateAcPower`). -/
structure TelemetryData where
  tsUtc : String
  poaIrrWm2 : ℚ
  tempC : ℚ
  windMps : ℚ
  acPowerKw : Option ℚ
  acEnergyKwh : Option ℚ
  status : String
deriving DecidableEq

/-- `date.getUTCHours() + date.getUTCMinutes() / 60`. -/
def timeOfDayQ (d : DateRec) : ℚ := (d.utcHours : ℚ) + (d.utcMinutes : ℚ) / 60

/-- Day of year as in `calculateIrradiance`:
`Math.floor((date.getTime() - startOfYear.getTime()) / 86400000) + 1`. -/
def dayOfYear1 (d : DateRec) : ℤ :=
  ⌊((d.timeMs - d.startOfYearMs : ℤ) : ℚ) / 86400000⌋ + 1

/-- Day of year as in `calculateCloudVariation` / `calculateTemperature`
(same expression without the `+ 1`). -/
def dayOfYear0 (d : DateRec) : ℤ :=
  ⌊((d.timeMs - d.startOfYearMs : ℤ) : ℚ) / 86400000⌋

/-- The solar declination of `calculateIrradiance`:
`23.45 * sin((284 + dayOfYear) * π / 180) * π / 180`. -/
def declination (P : MathPrims) (d : DateRec) : ℚ :=
  2345/100 * P.sinQ (((284 + dayOfYear1 d : ℤ) : ℚ) * P.pi / 180) * P.pi / 180

/-- The hour angle of `calculateIrradiance`: `(utcHours - 12) * 15 * π / 180`. -/
def hourAngle (P : MathPrims) (d : DateRec) : ℚ :=
  (timeOfDayQ d - 12) * 15 * P.pi / 180

/-- The solar elevation angle computed by `calculateIrradiance`:
`asin(sin(lat)sin(δ) + cos(lat)cos(δ)cos(h))` with `lat` in radians. -/
def solarElevation (P : MathPrims) (site : SiteObject) (d : DateRec) : ℚ :=
  let latRad := site.lat * P.pi / 180
  let decl := declination P d
  P.asinQ (P.sinQ latRad * P.sinQ decl +
    P.cosQ latRad * P.cosQ decl * P.cosQ (hourAngle P d))

/-- `calculateCloudVariation(date)`: seasonal sinusoid × daily sinusoid × a
uniform draw from `range(0.3, 1.2)`, clamped to `[0.1, 1.0]`.  This is the
single RNG draw of the irradiance computation. -/
def calculateCloudVariation (P : MathPrims) (d : DateRec) (r : RNG) : ℚ × RNG :=
  let tod := timeOfDayQ d
  let seasonalVariation := 8/10 + 4/10 * P.sinQ (2 * P.pi * ((dayOfYear0 d : ℤ) : ℚ) / 365)
  let dailyVariation := 7/10 + 6/10 * P.sinQ (P.pi * (tod - 6) / 12)
  let (randomFactor, r') := range r (3/10) (12/10)
  (clamp (seasonalVariation * dailyVariation * randomFactor) (1/10) 1, r')

/-- `calculateIrradiance(date)` from src/model/pv-simulation.ts.  If the
solar elevation is `≤ 0` the function returns `0` before any further
computation and before the cloud-variation RNG draw.  (The solar azimuth is
computed before the guard in the source, but it is pure and only used in the
post-guard branch, so it is placed there.)  `1 / sin(elevation)` is exact
rational division here (`Infinity` on a zero divisor in JS; unreachable for
claims about the guard). -/
def calculateIrradiance (P : MathPrims) (site : SiteObject) (d : DateRec)
    (r : RNG) : ℚ × RNG :=
  let elevation := solarElevation P site d
  if elevation ≤ 0 then (0, r)
  else
    let latRad := site.lat * P.pi / 180
    let decl := declination P d
    let hA := hourAngle P d
    let azimuth := P.atan2Q (P.sinQ hA)
      (P.cosQ hA * P.sinQ latRad - P.tanQ decl * P.cosQ latRad)
    let tiltRad := site.tiltDeg * P.pi / 180
    let azimuthRad := site.azimuthDeg * P.pi / 180
    let cosIncidence := P.sinQ elevation * P.cosQ tiltRad +
      P.cosQ elevation * P.sinQ tiltRad * P.cosQ (azimuth - azimuthRad)
    let earthSunDistance := 1 + 33/1000 * P.cosQ (2 * P.pi * ((dayOfYear1 d : ℤ) : ℚ) / 365)
    let extraterrestrialIrradiance := 1367 * earthSunDistance * P.sinQ elevation
    let airMass := 1 / P.sinQ elevation
    let atmosphericTransmittance := P.powQ (7/10) (P.powQ airMass (678/1000))
    let dni := extraterrestrialIrradiance * atmosphericTransmittance
    let diffuseFraction := 1/10 + 3/10 * P.expQ (-dni / 200)
    let diffuseIrradiance := dni * diffuseFraction
    let poaIrr := dni * max 0 cosIncidence +
      diffuseIrradiance * (1 + P.cosQ tiltRad) / 2
    let (cloudVariation, r') := calculateCloudVariation P d r
    let finalPoaIrr := max 0 (poaIrr * cloudVariation)
    (roundToDecimals finalPoaIrr 1, r')

/-- `calculateTemperature(date)`: latitude/seasonal/daily sinusoids plus
`normal(0, 2)` noise, clamped to `[-10, 50]`, rounded to 1 decimal. -/
def calculateTemperature (P : MathPrims) (site : SiteObject) (d : DateRec)
    (r : RNG) : ℚ × RNG :=
  let tod := timeOfDayQ d
  let baseTemp := 25 - (|site.lat| - 30) * 5/10
  let seasonalVariation := 10 * P.sinQ (2 * P.pi * (((dayOfYear0 d : ℤ) : ℚ) - 80) / 365)
  let dailyVariation := 8 * P.sinQ (P.pi * (tod - 6) / 12)
  let (randomVariation, r') := normalR P r 0 2
  let tempC := baseTemp + seasonalVariation + dailyVariation + randomVariation
  (roundToDecimals (clamp tempC (-10) 50) 1, r')

/-- `calculateWindSpeed(date)`: daily sinusoid baseline plus `range(0, 5)`
noise, floored at 0, rounded to 1 decimal. -/
def calculateWindSpeed (P : MathPrims) (d : DateRec) (r : RNG) : ℚ × RNG :=
  let tod := timeOfDayQ d
  let dailyVariation := 2 + 3 * P.sinQ (P.pi * (tod - 6) / 12)
  let (randomVariation, r') := range r 0 5
  (roundToDecimals (max 0 (dailyVariation + randomVariation)) 1, r')

/-- `calculateDcPower(poaIrrWm2, tempC)`: 20% module efficiency, −0.4%/°C
above 25 °C, 2 m² per module, floored at 0 and rounded to 3 decimals. -/
def calculateDcPower (site : SiteObject) (poaIrrWm2 tempC : ℚ) : ℚ :=
  let tempLoss := -4/1000 * (tempC - 25)
  let moduleArea := site.modules * 2
  let dcPowerKw := poaIrrWm2 * moduleArea * (20/100) * (1 + tempLoss) / 1000
  roundToDecimals (max 0 dcPowerKw) 3

/-- `calculateAcPower(dcPowerKw)`: inverter efficiency, then
`Math.min(acPowerKw, this.site.capacityAcKw)`, rounded to 3 decimals.  When
the site object lacks the lowercase `capacityAcKw` property (every
`siteConfigSchema`-validated config), `Math.min` with `undefined` is `NaN`
and the rounded result is `NaN` (= `none`). -/
def calculateAcPower (site : SiteObject) (dcPowerKw : ℚ) : Option ℚ :=
  let acPowerKw := dcPowerKw * site.inverterEff
  match site.capacityAcKw with
  | none => none
  | some cap => some (roundToDecimals (min acPowerKw cap) 3)

/-- `calculateEnergy(acPowerKw, intervalMinutes)`:
`acPowerKw * intervalMinutes / 60`, rounded to 3 decimals (`NaN` propagates). -/
def calculateEnergy (acPowerKw : Option ℚ) (intervalMinutes : ℚ) : Option ℚ :=
  acPowerKw.map (fun p => roundToDecimals (p * (intervalMinutes / 60)) 3)

/-- JavaScript `String.prototype.split` with the single-character separator
`':'`, on character lists (`acc` holds the current field, reversed). -/
def splitColon : List Char → List Char → List (List Char)
  | [], acc => [acc.reverse]
  | c :: rest, acc =>
    if c = ':' then acc.reverse :: splitColon rest []
    else splitColon rest (c :: acc)

/-- JavaScript `Number(string)` restricted to the shapes `parseTime` feeds it:
a nonempty all-digit string is its decimal value, the empty string is `0`,
anything else is `NaN` (= `none`; sign/decimal-point/whitespace forms do not
occur in `"HH:MM"` splits and are not modelled). -/
def jsNumberChars (cs : List Char) : Option ℚ :=
  if cs = [] then some 0
  else if cs.all (fun c => c.isDigit) then
    some ((cs.foldl (fun acc c => 10 * acc + (c.toNat - 48)) 0 : ℕ) : ℚ)
  else none

/-- `parseTime(timeStr)`: `const [hours, minutes] = timeStr.split(':')` and
`hours + minutes / 60`.  A missing `':'` leaves `minutes = undefined`, so the
sum is `NaN`; a non-numeric part is likewise `NaN`. -/
def parseTime (timeStr : String) : Option ℚ :=
  match splitColon timeStr.data [] with
  | hChars :: mChars :: _ => do
    let hv ← jsNumberChars hChars
    let mv ← jsNumberChars mChars
    pure (hv + mv / 60)
  | _ => none

/-- JavaScript `String.prototype.includes` on character lists. -/
def containsSub : List Char → List Char → Bool
  | l, sub =>
    if List.isPrefixOf sub l then true
    else match l with
      | [] => false
      | _ :: t => containsSub t sub

/-- `matchesDayPattern(dayOfWeek, pattern)`: the weekday code
(`dayNames[dayOfWeek]`) is a substring of the pattern, or the pattern is
`"ALL"`. -/
def matchesDayPattern (dayOfWeek : Fin 7) (pattern : String) : Bool :=
  let dayNames := ["SUN", "MON", "TUE", "WED", "THU", "FRI", "SAT"]
  let currentDay := dayNames.getD dayOfWeek.val ""
  containsSub pattern.data currentDay.data || pattern = "ALL"

/-- The per-window test of `checkOutage`: the fractional time of day lies in
`[start, end]` (a `NaN` bound fails both comparisons) and the weekday matches
the day pattern. -/
def windowMatches (d : DateRec) (w : OutageWindow) : Bool :=
  let tod := timeOfDayQ d
  (match parseTime w.start, parseTime w.ending with
   | some s, some e => decide (s ≤ tod) && decide (tod ≤ e)
   | _, _ => false) && matchesDayPattern d.utcDay w.days

/-- `checkOutage(date)` from src/model/pv-simulation.ts: true iff some
configured outage window matches the timestamp's time of day and weekday. -/
def checkOutage (site : SiteObject) (d : DateRec) : Bool :=
  site.outageWindows.any (windowMatches d)

/-- `checkCurtailment()`: one `next()` draw compared against the configured
curtailment probability. -/
def checkCurtailment (site : SiteObject) (r : RNG) : Bool × RNG :=
  let (v, r') := next r
  (decide (v < site.curtailmentPct), r')

/-- The weather portion of `generateTelemetry`: irradiance, temperature and
wind computed in sequence, threading the RNG. -/
def weatherOf (P : MathPrims) (site : SiteObject) (d : DateRec) (r : RNG) :
    (ℚ × ℚ × ℚ) × RNG :=
  let (poaIrrWm2, r1) := calculateIrradiance P site d r
  let (tempC, r2) := calculateTemperature P site d r1
  let (windMps, r3) := calculateWindSpeed P d r2
  ((poaIrrWm2, tempC, windMps), r3)

/-- `generateTelemetry(date, intervalMinutes)` from src/model/pv-simulation.ts:
weather first, then `isOutage = checkOutage(date)` and
`isCurtailed = !isOutage && checkCurtailment()` — the short-circuit skips the
curtailment RNG draw whenever an outage is active.  Power is `0` unless the
status is `OK` and irradiance is positive. -/
def generateTelemetry (P : MathPrims) (site : SiteObject) (d : DateRec)
    (intervalMinutes : ℚ) (r : RNG) : TelemetryData × RNG :=
  let ((poaIrrWm2, tempC, windMps), r3) := weatherOf P site d r
  let isOutage := checkOutage site d
  let (isCurtailed, r4) :=
    if isOutage then (false, r3) else checkCurtailment site r3
  let acPowerKw : Option ℚ :=
    if isOutage then some 0
    else if isCurtailed then some 0
    else if poaIrrWm2 > 0 then
      calculateAcPower site (calculateDcPower site poaIrrWm2 tempC)
    else some 0
  let status := if isOutage then "OUTAGE"
    else if isCurtailed then "CURTAILED" else "OK"
  let acEnergyKwh := calculateEnergy acPowerKw intervalMinutes
  (⟨d.iso, poaIrrWm2, tempC, windMps, acPowerKw, acEnergyKwh, status⟩, r4)

/-! ## Anchor client (src/anchor/registry-adapter-client.ts) -/

/-- The `AnchorResponse` result shape. -/
structure AnchorResponse where
  adapterTxId : String
  txHash : String
  blockNumber : ℤ
  success : Bool
  error : Option String
deriving DecidableEq

/-- The `AnchorStatus` result of `checkAnchorStatus`. -/
structure AnchorStatus where
  ok : Bool
  error : Option String
deriving DecidableEq

/-- An outbound `POST /v1/anchor` request body. -/
structure AnchorRequest where
  topic : String
  hash : String
  uri : Option String
deriving DecidableEq

/-- The adapter's wire response fields on a 2xx reply. -/
structure WireResponse where
  adapterTxId : String
  txHash : String
  blockNumber : ℤ
deriving DecidableEq

/-- One HTTP exchange outcome: a 2xx reply carrying the wire fields, or a
transport/HTTP failure whose message the catch block extracts. -/
def Transport := AnchorRequest → Except String WireResponse

/-- `anchorDigest(siteId, dayUtc, merkleRoot, uri)`: when anchoring is
disabled it immediately returns the failure response with error
`'Anchoring is disabled'`; otherwise it builds the topic and `0x`-prefixed
hash, posts the request and maps the reply.  The second component is the list
of HTTP requests actually issued. -/
def anchorDigest (enabled : Bool) (transport : Transport)
    (siteId dayUtc merkleRoot : String) (uri : Option String) :
    AnchorResponse × List AnchorRequest :=
  if !enabled then
    (⟨"", "", 0, false, some "Anchoring is disabled"⟩, [])
  else
    let topic := "IOT:" ++ siteId ++ ":" ++ dayUtc
    let hash := if merkleRoot.startsWith "0x" then merkleRoot
      else "0x" ++ merkleRoot
    let req : AnchorRequest := ⟨topic, hash, uri⟩
    match transport req with
    | .ok w => (⟨w.adapterTxId, w.txHash, w.blockNumber, true, none⟩, [req])
    | .error msg => (⟨"", "", 0, false, some msg⟩, [req])

/-- One `GET /health` outcome: the HTTP status code, or a failure message. -/
def HealthTransport := Unit → Except String ℕ

/-- `checkAnchorStatus()`: when anchoring is disabled it returns
`{ ok: false, error: 'Anchoring is disabled' }` without any HTTP call;
otherwise `ok` iff the health endpoint returns status 200.  The second
component counts the HTTP calls issued. -/
def checkAnchorStatus (enabled : Bool) (transport : HealthTransport) :
    AnchorStatus × ℕ :=
  if !enabled then (⟨false, some "Anchoring is disabled"⟩, 0)
  else
    match transport () with
    | .ok status => (⟨decide (status = 200), none⟩, 1)
    | .error msg => (⟨false, some msg⟩, 1)

/-- JavaScript template-literal rendering of a possibly-undefined string. -/
def jsShowOpt : Option String → String
  | none => "undefined"
  | some s => s

/-- The terminal failure response of `anchorDigestWithRetry`:
`Failed after ${maxRetries} attempts: ${lastError}`. -/
def mkFailResp (maxRetries : ℕ) (lastError : Option String) : AnchorResponse :=
  ⟨"", "", 0, false,
   some ("Failed after " ++ natDigits maxRetries ++ " attempts: " ++
     jsShowOpt lastError)⟩

/-- The retry loop body of `anchorDigestWithRetry`: `left` attempts remain,
the current attempt is number `attempt`.  Each failed attempt records the
result's error (or the thrown message) as `lastError`, and sleeps
`2^attempt * 1000` ms when further attempts remain — the `delays` list
collects those sleeps.  A successful result is returned unchanged. -/
def anchorRetryGo (attemptOutcome : ℕ → Except String AnchorResponse)
    (maxRetries : ℕ) :
    ℕ → ℕ → Option String → List ℕ → AnchorResponse × List ℕ
  | 0, _, lastError, delays => (mkFailResp maxRetries lastError, delays)
  | left + 1, attempt, _, delays =>
    match attemptOutcome attempt with
    | .ok result =>
      if result.success then (result, delays)
      else
        let delays' := if attempt < maxRetries
          then delays ++ [2 ^ attempt * 1000] else delays
        anchorRetryGo attemptOutcome maxRetries left (attempt + 1)
          result.error delays'
    | .error e =>
      let delays' := if attempt < maxRetries
        then delays ++ [2 ^ attempt * 1000] else delays
      anchorRetryGo attemptOutcome maxRetries left (attempt + 1)
        (some e) delays'

/-- `anchorDigestWithRetry(…, maxRetries = 3)`: `attemptOutcome k` is the
outcome of the `k`-th `anchorDigest` call (1-based); the result is paired with
the list of backoff sleeps (ms) performed. -/
def anchorDigestWithRetry (attemptOutcome : ℕ → Except String AnchorResponse)
    (maxRetries : ℕ) : AnchorResponse × List ℕ :=
  anchorRetryGo attemptOutcome maxRetries maxRetries 1 none []

/-- The successful response of an attempt outcome, if any (a thrown error or
a `success: false` response is a failed attempt). -/
def attemptSuccess : Except String AnchorResponse → Option AnchorResponse
  | .ok r => if r.success then some r else none
  | .error _ => none

/-- The error recorded from a failed attempt: the response's `error` field,
or the thrown message. -/
def attemptError : Except String AnchorResponse → Option String
  | .ok r => r.error
  | .error e => some e

/-- Modelled from the spec (§4.8): up to 3 attempts with backoff sleeps of
`2^attempt` seconds between attempts; the first successful response is
returned unchanged, and after exhausting the budget a failure result names
the attempt count and the last error. -/
def retrySpec (attemptOutcome : ℕ → Except String AnchorResponse) :
    AnchorResponse × List ℕ :=
  match attemptSuccess (attemptOutcome 1), attemptSuccess (attemptOutcome 2),
      attemptSuccess (attemptOutcome 3) with
  | some r, _, _ => (r, [])
  | none, some r, _ => (r, [2000])
  | none, none, some r => (r, [2000, 4000])
  | none, none, none => (mkFailResp 3 (attemptError (attemptOutcome 3)), [2000, 4000])

/-- A concrete instantiation of the `Math` primitives used by witnesses:
every function is constant (`asin` is constantly `-1`, placing the sun below
the horizon). -/
def constPrims : MathPrims :=
  { pi := 0, sinQ := fun _ => 0, cosQ := fun _ => 0, tanQ := fun _ => 0,
    asinQ := fun _ => -1, atan2Q := fun _ _ => 0, expQ := fun _ => 0,
    logQ := fun _ => 0, sqrtQ := fun _ => 0, powQ := fun _ _ => 0 }

/-- A concrete site object used by witnesses: a single outage window covering
12:00 on every day, and curtailment probability 1. -/
def witnessSite : SiteObject :=
  { lat := 0, lon := 0, tiltDeg := 0, azimuthDeg := 0, modules := 0,
    inverterEff := 0, capacityAcKw := none,
    outageWindows := [⟨"12:00", "12:00", "ALL"⟩], curtailmentPct := 1 }

/-- A concrete timestamp used by witnesses: 12:00 UTC on a Wednesday. -/
def witnessDate : DateRec :=
  { timeMs := 0, startOfYearMs := 0, utcHours := 12, utcMinutes := 0,
    utcDay := 3, iso := "2024-01-03T12:00:00.000Z" }

/-! ## Helper lemmas -/

/-- Rounding zero to any number of decimals yields zero. -/
lemma roundToDecimals_zero (n : ℕ) : roundToDecimals 0 n = 0 := by
  have : (⌊(0 : ℚ) * (10 : ℚ) ^ n + 1/2⌋ : ℤ) = 0 := by
    rw [zero_mul, zero_add, Int.floor_eq_zero_iff, Set.mem_Ico]
    norm_num
  unfold roundToDecimals
  rw [this]
  norm_num

/-- Every `next()` output is below 1 (it is a 32-bit word over `2^32`). -/
lemma nextVal_lt_one (r : RNG) : nextVal r < 1 := by
  unfold nextVal
  have hm : ((r.a * 5 * 128 % M32) ||| (r.a * 5 % M32) >>> 25) * 9 % M32 < M32 :=
    Nat.mod_lt _ (by norm_num [M32])
  rw [div_lt_one (by norm_num [M32])]
  exact_mod_cast hm

/-- The `next()` method returns the state it read. -/
lemma next_state_eq (r : RNG) : (next r).2 = r := by
  cases r; rfl

/-- Evaluation helper for `toFixedQ` on a nonnegative rational. -/
lemma toFixedQ_eval_nonneg {x : ℚ} {f : ℕ} {n : ℤ} (hneg : ¬ x < 0)
    (hfl : ⌊|x| * (10 : ℚ) ^ f + 1/2⌋ = n) :
    toFixedQ x f = renderFixed false n.toNat f := by
  unfold toFixedQ
  rw [hfl, decide_eq_false hneg]

/-- Evaluation helper for `toFixedQ` on a negative rational. -/
lemma toFixedQ_eval_neg {x : ℚ} {f : ℕ} {n : ℤ} (hneg : x < 0)
    (hfl : ⌊|x| * (10 : ℚ) ^ f + 1/2⌋ = n) :
    toFixedQ x f = renderFixed true n.toNat f := by
  unfold toFixedQ
  rw [hfl, decide_eq_true hneg]

/-- Two rationals that round to the same value at precision `f` (JS `toFixed`
rounding) and agree in sign render to the same fixed-precision string. -/
lemma toFixedQ_congr {x y : ℚ} {f : ℕ}
    (hv : jsFixedValue x f = jsFixedValue y f) (hs : x < 0 ↔ y < 0) :
    toFixedQ x f = toFixedQ y f := by
  have hpow : ((10 : ℚ) ^ f) ≠ 0 := by positivity
  have hsame : (if x < 0 then (-1 : ℚ) else 1) = (if y < 0 then (-1 : ℚ) else 1) := by
    by_cases hx : x < 0
    · rw [if_pos hx, if_pos (hs.mp hx)]
    · rw [if_neg hx, if_neg (fun h => hx (hs.mpr h))]
  have hs0 : (if x < 0 then (-1 : ℚ) else 1) ≠ 0 := by
    split <;> norm_num
  have hmag : Int.toNat ⌊|x| * (10 : ℚ) ^ f + 1/2⌋ =
      Int.toNat ⌊|y| * (10 : ℚ) ^ f + 1/2⌋ := by
    unfold jsFixedValue at hv
    rw [← hsame] at hv
    have h1 := congrArg (· * (10 : ℚ) ^ f) hv
    simp only [div_mul_cancel₀ _ hpow] at h1
    exact_mod_cast mul_left_cancel₀ hs0 h1
  unfold toFixedQ
  rw [hmag]
  congr 1
  simp only [decide_eq_decide]
  exact hs

/-! ## Claim theorems -/

/-- C1 counterexample: the claim says `buildMerkleRoot` fails on an empty
input list, but the source returns `sha256('')`: the spec-modelled builder
(`merkleRootSpec`, which fails on zero hashes) disagrees with the code at
`[]`, where the code produces the degenerate empty-string digest. -/
theorem buildMerkleRoot_empty_not_error :
    merkleRootSpec [] = none ∧ buildMerkleRoot [] = sha256 "" :=
  ⟨by decide, rfl⟩

/-- C1 (amended): for an empty input list `buildMerkleRoot` does not fail —
it returns the degenerate root `sha256('')`
(`e3b0c44298fc1c149afbf4c8996fb92427ae41e4649b934ca495991b7852b855`). -/
theorem buildMerkleRoot_empty_degenerate :
    buildMerkleRoot [] =
      "e3b0c44298fc1c149afbf4c8996fb92427ae41e4649b934ca495991b7852b855" := by
  decide

/-- C2 (code bug): on the unit-test site configuration — a value of the
`siteConfigSchema` shape, which spells the AC capacity `capacityAcKW` — the
model's `calculateAcPower` reads the nonexistent lowercase property
`this.site.capacityAcKw`, so `Math.min(dc · inverterEff, undefined)` is `NaN`
(`none`): the claimed invariant `0 ≤ acPowerKw ≤ capacityAcKW` cannot hold,
and the repository's own test (`should respect AC capacity limit`,
expecting `≤ 800` at `dcPowerKw = 2000`) fails. -/
theorem calculateAcPower_schema_site_nan :
    calculateAcPower (siteFromConfig testSite) 2000 = none := rfl

/-- C3: `next()` writes back exactly the state words it read, so from any
fixed seed the stream of `next()` outputs is the constant sequence determined
solely by the seed. -/
theorem next_state_constant (r : RNG) (seed k : ℕ) :
    (next r).2 = r ∧ nextStream (initRNG seed) k = nextVal (initRNG seed) := by
  refine ⟨next_state_eq r, ?_⟩
  induction k with
  | zero => rfl
  | succ n ih =>
    show nextStream (next (initRNG seed)).2 n = nextVal (initRNG seed)
    rw [next_state_eq]
    exact ih

/-- C8: two independently constructed `DeterministicRNG` instances with equal
seeds produce identical output sequences (and identical final states) under
an identical sequence of method calls, for every implementation of the `Math`
primitives. -/
theorem rng_same_seed_same_outputs (P : MathPrims) (seed1 seed2 : ℕ)
    (cs : List RngCall) (h : seed1 = seed2) :
    runCalls P (initRNG seed1) cs = runCalls P (initRNG seed2) cs := by
  rw [h]

/-- C8 witness: seed 42 against seed 42 over a call sequence exercising every
method. -/
theorem rng_same_seed_same_outputs_witness :
    runCalls constPrims (initRNG 42)
        [.next, .range 0 5, .int 1 10, .boolean (1/2), .choice [1, 2, 3],
         .normal 0 2, .normal 0 2] =
      runCalls constPrims (initRNG 42)
        [.next, .range 0 5, .int 1 10, .boolean (1/2), .choice [1, 2, 3],
         .normal 0 2, .normal 0 2] :=
  rng_same_seed_same_outputs constPrims 42 42 _ rfl

/-- Sorting is invariant under permutation of the input: permuted inputs have
equal insertion sorts (lexicographic order on strings is a linear order). -/
lemma sortStrings_eq_of_perm {l1 l2 : List String} (h : l1.Perm l2) :
    sortStrings l1 = sortStrings l2 := by
  apply List.eq_of_perm_of_sorted (r := (· ≤ · : String → String → Prop))
  · exact (List.perm_insertionSort _ l1).trans
      (h.trans (List.perm_insertionSort _ l2).symm)
  · exact List.sorted_insertionSort _ l1
  · exact List.sorted_insertionSort _ l2

/-- C5: `buildMerkleRoot` of a nonempty hash list is invariant under
permutation of the input, because the leaves are sorted lexicographically
before pairwise combination. -/
theorem buildMerkleRoot_perm_invariant (l1 l2 : List String) (hne : l1 ≠ [])
    (h : l1.Perm l2) : buildMerkleRoot l1 = buildMerkleRoot l2 := by
  have hlen : l1.length = l2.length := h.length_eq
  unfold buildMerkleRoot
  rw [← hlen]
  by_cases h0 : l1.length = 0
  · exact absurd (List.length_eq_zero.mp h0) hne
  · rw [if_neg h0, if_neg h0]
    by_cases h1 : l1.length = 1
    · rw [if_pos h1, if_pos h1]
      obtain ⟨a, rfl⟩ := List.length_eq_one.mp h1
      rw [List.perm_singleton.mp h.symm]
    · rw [if_neg h1, if_neg h1, sortStrings_eq_of_perm h]

/-- C5 witness: the spec's example, `["h1","h2","h3","h4"]` against its
reversal. -/
theorem buildMerkleRoot_perm_invariant_witness :
    (["h1", "h2", "h3", "h4"] : List String) ≠ [] ∧
      buildMerkleRoot ["h1", "h2", "h3", "h4"] =
        buildMerkleRoot ["h4", "h3", "h2", "h1"] :=
  ⟨by decide, buildMerkleRoot_perm_invariant _ _ (by decide) (by decide)⟩

/-- C9: whenever the computed solar elevation is at or below the horizon,
`calculateIrradiance` returns exactly 0 and leaves the RNG untouched (the
cloud-variation draw is never taken), for every implementation of the `Math`
primitives, every site and every timestamp. -/
theorem calculateIrradiance_below_horizon (P : MathPrims) (site : SiteObject)
    (d : DateRec) (r : RNG) (h : solarElevation P site d ≤ 0) :
    calculateIrradiance P site d r = (0, r) := by
  unfold calculateIrradiance
  rw [if_pos h]

/-- C9 witness: with the constant primitives (`asin ≡ -1`) the elevation is
negative at a concrete site/timestamp, and the irradiance call returns 0 with
the RNG state unchanged. -/
theorem calculateIrradiance_below_horizon_witness :
    solarElevation constPrims witnessSite witnessDate ≤ 0 ∧
      calculateIrradiance constPrims witnessSite witnessDate ⟨1, 2, 3, 4, none⟩ =
        (0, ⟨1, 2, 3, 4, none⟩) :=
  ⟨by norm_num [solarElevation, constPrims],
   calculateIrradiance_below_horizon _ _ _ _
     (by norm_num [solarElevation, constPrims])⟩

/-- Evaluation of `parseTime` on the witness window bound. -/
lemma parseTime_1200 : parseTime "12:00" = some 12 := by
  unfold parseTime
  rw [show splitColon "12:00".data [] = [['1', '2'], ['0', '0']] from by decide]
  show (do
    let hv ← jsNumberChars ['1', '2']
    let mv ← jsNumberChars ['0', '0']
    pure (hv + mv / 60) : Option ℚ) = some 12
  rw [show jsNumberChars ['1', '2'] = some ((12 : ℕ) : ℚ) from by decide,
      show jsNumberChars ['0', '0'] = some ((0 : ℕ) : ℚ) from by decide]
  show some (((12 : ℕ) : ℚ) + ((0 : ℕ) : ℚ) / 60) = some 12
  norm_num

/-- The witness timestamp's fractional time of day is 12. -/
lemma timeOfDayQ_witness : timeOfDayQ witnessDate = 12 := by
  norm_num [timeOfDayQ, witnessDate]

/-- The witness site's outage window matches the witness timestamp. -/
lemma windowMatches_witness :
    windowMatches witnessDate ⟨"12:00", "12:00", "ALL"⟩ = true := by
  unfold windowMatches
  rw [timeOfDayQ_witness, parseTime_1200]
  show (decide ((12 : ℚ) ≤ 12) && decide ((12 : ℚ) ≤ 12)) &&
    matchesDayPattern witnessDate.utcDay "ALL" = true
  rw [show witnessDate.utcDay = (3 : Fin 7) from rfl]
  decide

/-- The witness timestamp lies in a configured outage window of the witness
site. -/
lemma checkOutage_witness : checkOutage witnessSite witnessDate = true := by
  show List.any [⟨"12:00", "12:00", "ALL"⟩] (windowMatches witnessDate) = true
  rw [List.any_cons, List.any_nil, windowMatches_witness]
  rfl

/-- C4: when the timestamp falls inside a configured outage window
(`checkOutage` true), `generateTelemetry` reports status `OUTAGE` with zero
power and energy even when the pending curtailment draw would indicate
curtailment, and the final RNG state equals the state after the weather
computations — the curtailment draw is not consumed. -/
theorem generateTelemetry_outage_precedence (P : MathPrims)
    (site : SiteObject) (d : DateRec) (intervalMinutes : ℚ) (r : RNG)
    (hout : checkOutage site d = true)
    (_hcurt : nextVal (weatherOf P site d r).2 < site.curtailmentPct) :
    (generateTelemetry P site d intervalMinutes r).1.status = "OUTAGE" ∧
      (generateTelemetry P site d intervalMinutes r).1.acPowerKw = some 0 ∧
      (generateTelemetry P site d intervalMinutes r).1.acEnergyKwh = some 0 ∧
      (generateTelemetry P site d intervalMinutes r).2 =
        (weatherOf P site d r).2 := by
  rcases hw : weatherOf P site d r with ⟨⟨poa, temp, wind⟩, r3⟩
  simp only [generateTelemetry, hw, hout, if_true]
  refine ⟨trivial, trivial, ?_, trivial⟩
  show calculateEnergy (some 0) intervalMinutes = some 0
  simp [calculateEnergy, roundToDecimals_zero]

/-- C4 witness: the witness site has an all-day outage window over 12:00 and
curtailment probability 1 (every draw indicates curtailment), yet the record
is an outage with zero power/energy and the curtailment draw is skipped. -/
theorem generateTelemetry_outage_precedence_witness :
    checkOutage witnessSite witnessDate = true ∧
      nextVal (weatherOf constPrims witnessSite witnessDate ⟨1, 2, 3, 4, none⟩).2 <
        witnessSite.curtailmentPct ∧
      ((generateTelemetry constPrims witnessSite witnessDate 5
          ⟨1, 2, 3, 4, none⟩).1.status = "OUTAGE" ∧
        (generateTelemetry constPrims witnessSite witnessDate 5
          ⟨1, 2, 3, 4, none⟩).1.acPowerKw = some 0 ∧
        (generateTelemetry constPrims witnessSite witnessDate 5
          ⟨1, 2, 3, 4, none⟩).1.acEnergyKwh = some 0 ∧
        (generateTelemetry constPrims witnessSite witnessDate 5
          ⟨1, 2, 3, 4, none⟩).2 =
          (weatherOf constPrims witnessSite witnessDate ⟨1, 2, 3, 4, none⟩).2) :=
  ⟨checkOutage_witness,
   lt_of_lt_of_le (nextVal_lt_one _) (le_of_eq rfl),
   generateTelemetry_outage_precedence constPrims witnessSite witnessDate 5
     ⟨1, 2, 3, 4, none⟩ checkOutage_witness
     (lt_of_lt_of_le (nextVal_lt_one _) (le_of_eq rfl))⟩

/-- C6: `anchorDigestWithRetry` with the default budget of 3 behaves exactly
as specified, for every sequence of attempt outcomes: it returns the first
successful `AnchorResponse` unchanged, sleeping `2^attempt · 1000` ms after
each failed non-final attempt, and when all 3 attempts fail it returns (never
throws) a failure response whose error message names the attempt count and
the last error. -/
theorem anchorDigestWithRetry_spec (ao : ℕ → Except String AnchorResponse) :
    anchorDigestWithRetry ao 3 = retrySpec ao := by
  unfold anchorDigestWithRetry retrySpec
  show anchorRetryGo ao 3 (2 + 1) 1 none [] = _
  rw [anchorRetryGo]
  cases h1 : ao 1 with
  | ok r1 =>
    cases hs1 : r1.success with
    | true => simp [attemptSuccess, h1, hs1]
    | false =>
      simp only [attemptSuccess, h1, hs1, if_false, Bool.false_eq_true,
        if_true, Nat.one_lt_ofNat, List.nil_append]
      show anchorRetryGo ao 3 (1 + 1) 2 r1.error [2 ^ 1 * 1000] = _
      rw [anchorRetryGo]
      cases h2 : ao 2 with
      | ok r2 =>
        cases hs2 : r2.success with
        | true => simp [attemptSuccess, h1, hs1, h2, hs2]
        | false =>
          simp only [attemptSuccess, h1, hs1, h2, hs2, Bool.false_eq_true,
            if_false, if_true]
          show anchorRetryGo ao 3 (0 + 1) 3 r2.error
              ([2 ^ 1 * 1000] ++ [2 ^ 2 * 1000]) = _
          rw [anchorRetryGo]
          cases h3 : ao 3 with
          | ok r3 =>
            cases hs3 : r3.success with
            | true => simp [attemptSuccess, h1, hs1, h2, hs2, h3, hs3]
            | false =>
              simp [attemptSuccess, attemptError, h1, hs1, h2, hs2, h3, hs3,
                anchorRetryGo]
          | error e3 =>
            simp [attemptSuccess, attemptError, h1, hs1, h2, hs2, h3,
              anchorRetryGo]
      | error e2 =>
        simp only [attemptSuccess, h1, hs1, h2, Bool.false_eq_true, if_false,
          if_true]
        show anchorRetryGo ao 3 (0 + 1) 3 (some e2)
            ([2 ^ 1 * 1000] ++ [2 ^ 2 * 1000]) = _
        rw [anchorRetryGo]
        cases h3 : ao 3 with
        | ok r3 =>
          cases hs3 : r3.success with
          | true => simp [attemptSuccess, h1, hs1, h2, h3, hs3]
          | false =>
            simp [attemptSuccess, attemptError, h1, hs1, h2, h3, hs3,
              anchorRetryGo]
        | error e3 =>
          simp [attemptSuccess, attemptError, h1, hs1, h2, h3, anchorRetryGo]
  | error e1 =>
    simp only [attemptSuccess, h1, if_true, Nat.one_lt_ofNat, List.nil_append]
    show anchorRetryGo ao 3 (1 + 1) 2 (some e1) [2 ^ 1 * 1000] = _
    rw [anchorRetryGo]
    cases h2 : ao 2 with
    | ok r2 =>
      cases hs2 : r2.success with
      | true => simp [attemptSuccess, h1, h2, hs2]
      | false =>
        simp only [attemptSuccess, h1, h2, hs2, Bool.false_eq_true, if_false,
          if_true]
        show anchorRetryGo ao 3 (0 + 1) 3 r2.error
            ([2 ^ 1 * 1000] ++ [2 ^ 2 * 1000]) = _
        rw [anchorRetryGo]
        cases h3 : ao 3 with
        | ok r3 =>
          cases hs3 : r3.success with
          | true => simp [attemptSuccess, h1, h2, hs2, h3, hs3]
          | false =>
            simp [attemptSuccess, attemptError, h1, h2, hs2, h3, hs3,
              anchorRetryGo]
        | error e3 =>
          simp [attemptSuccess, attemptError, h1, h2, hs2, h3, anchorRetryGo]
    | error e2 =>
      simp only [attemptSuccess, h1, h2, if_true]
      show anchorRetryGo ao 3 (0 + 1) 3 (some e2)
          ([2 ^ 1 * 1000] ++ [2 ^ 2 * 1000]) = _
      rw [anchorRetryGo]
      cases h3 : ao 3 with
      | ok r3 =>
        cases hs3 : r3.success with
        | true => simp [attemptSuccess, h1, h2, h3, hs3]
        | false =>
          simp [attemptSuccess, attemptError, h1, h2, h3, hs3, anchorRetryGo]
      | error e3 =>
        simp [attemptSuccess, attemptError, h1, h2, h3, anchorRetryGo]

/-- C7 counterexample: `-0.0004` and `0.0004` are numerically equal at 3
decimals (both round to 0), yet JS `toFixed` renders the negative one as
`"-0.000"`, so `hashTelemetryRow` produces different digests — the claim as
stated fails on sign-mismatched values that round to zero. -/
theorem hashTelemetryRow_negative_zero_counterexample :
    jsFixedValue (-1/2500 : ℚ) 3 = jsFixedValue (1/2500 : ℚ) 3 ∧
      hashTelemetryRow "S1" "2024-01-01T00:00:00.000Z" (-1/2500) 2 100 25 "OK" ≠
        hashTelemetryRow "S1" "2024-01-01T00:00:00.000Z" (1/2500) 2 100 25 "OK" := by
  have hfl1 : (⌊|(-1/2500 : ℚ)| * (10 : ℚ) ^ 3 + 1/2⌋ : ℤ) = 0 := by
    rw [show |(-1/2500 : ℚ)| = 1/2500 from by norm_num]
    norm_num
  have hfl2 : (⌊|(1/2500 : ℚ)| * (10 : ℚ) ^ 3 + 1/2⌋ : ℤ) = 0 := by
    rw [show |(1/2500 : ℚ)| = 1/2500 from by norm_num]
    norm_num
  have hfl3 : (⌊|(2 : ℚ)| * (10 : ℚ) ^ 3 + 1/2⌋ : ℤ) = 2000 := by
    rw [show |(2 : ℚ)| = 2 from by norm_num]
    norm_num
  have hfl4 : (⌊|(100 : ℚ)| * (10 : ℚ) ^ 1 + 1/2⌋ : ℤ) = 1000 := by
    rw [show |(100 : ℚ)| = 100 from by norm_num]
    norm_num
  have hfl5 : (⌊|(25 : ℚ)| * (10 : ℚ) ^ 1 + 1/2⌋ : ℤ) = 250 := by
    rw [show |(25 : ℚ)| = 25 from by norm_num]
    norm_num
  constructor
  · unfold jsFixedValue
    rw [hfl1, hfl2]
    norm_num
  · unfold hashTelemetryRow
    rw [toFixedQ_eval_neg (by norm_num) hfl1,
        toFixedQ_eval_nonneg (by norm_num) hfl2,
        toFixedQ_eval_nonneg (by norm_num) hfl3,
        toFixedQ_eval_nonneg (by norm_num) hfl4,
        toFixedQ_eval_nonneg (by norm_num) hfl5]
    decide

/-- C7 (amended): two telemetry rows with equal site id, timestamp and status
whose numeric fields round to the same value at the stated precision (JS
`toFixed` rounding: 3 decimals for energy/power, 1 for
irradiance/temperature) AND agree in sign hash identically — the
fixed-precision string rendering, not the raw value, is hashed (so 1.5 and
1.500, or 1.5001 and 1.5004, yield the same digest); the sign condition only
excludes the minus-signed zero rendering of the counterexample. -/
theorem hashTelemetryRow_fixed_precision (siteId tsUtc status : String)
    (e1 e2 p1 p2 i1 i2 t1 t2 : ℚ)
    (he : jsFixedValue e1 3 = jsFixedValue e2 3) (hes : e1 < 0 ↔ e2 < 0)
    (hp : jsFixedValue p1 3 = jsFixedValue p2 3) (hps : p1 < 0 ↔ p2 < 0)
    (hi : jsFixedValue i1 1 = jsFixedValue i2 1) (his : i1 < 0 ↔ i2 < 0)
    (ht : jsFixedValue t1 1 = jsFixedValue t2 1) (hts : t1 < 0 ↔ t2 < 0) :
    hashTelemetryRow siteId tsUtc e1 p1 i1 t1 status =
      hashTelemetryRow siteId tsUtc e2 p2 i2 t2 status := by
  unfold hashTelemetryRow
  rw [toFixedQ_congr he hes, toFixedQ_congr hp hps, toFixedQ_congr hi his,
      toFixedQ_congr ht hts]

/-- C7 witness: 1.5001 and 1.5 both render as `"1.500"` at 3 decimals, and
the row hashes coincide. -/
theorem hashTelemetryRow_fixed_precision_witness :
    jsFixedValue (15001/10000 : ℚ) 3 = jsFixedValue (3/2 : ℚ) 3 ∧
      hashTelemetryRow "SITE1" "2024-01-01T00:00:00.000Z" (15001/10000) 2 100 25 "OK" =
        hashTelemetryRow "SITE1" "2024-01-01T00:00:00.000Z" (3/2) 2 100 25 "OK" := by
  have he : jsFixedValue (15001/10000 : ℚ) 3 = jsFixedValue (3/2 : ℚ) 3 := by
    unfold jsFixedValue
    rw [show |(15001/10000 : ℚ)| = 15001/10000 from by norm_num,
        show |(3/2 : ℚ)| = 3/2 from by norm_num,
        show (⌊(15001/10000 : ℚ) * (10 : ℚ) ^ 3 + 1/2⌋ : ℤ) = 1500 from by norm_num,
        show (⌊(3/2 : ℚ) * (10 : ℚ) ^ 3 + 1/2⌋ : ℤ) = 1500 from by norm_num]
    norm_num
  exact ⟨he,
    hashTelemetryRow_fixed_precision "SITE1" "2024-01-01T00:00:00.000Z" "OK"
      (15001/10000) (3/2) 2 2 100 100 25 25
      he (by norm_num) rfl Iff.rfl rfl Iff.rfl rfl Iff.rfl⟩

/-- C10: with anchoring disabled, `anchorDigest` returns the failure response
(`success = false`, error `'Anchoring is disabled'`, empty transaction
fields) without issuing any HTTP request, and `checkAnchorStatus` returns
`ok = false` with the same error and no health call — for every transport
behaviour and every argument. -/
theorem anchor_disabled_no_http (transport : Transport)
    (health : HealthTransport) (siteId dayUtc merkleRoot : String)
    (uri : Option String) :
    anchorDigest false transport siteId dayUtc merkleRoot uri =
        (⟨"", "", 0, false, some "Anchoring is disabled"⟩, []) ∧
      checkAnchorStatus false health =
        (⟨false, some "Anchoring is disabled"⟩, 0) :=
  ⟨rfl, rfl⟩

end SolarSim

